import Mathlib

/-!
# Verification of `fetch_tweet.py` (easy-paas, skills/x-tweet-fetcher)

Shallow embedding of `src/skills/x-tweet-fetcher/scripts/fetch_tweet.py`.

Conventions of the embedding:
* Python `dict` values produced as output are modelled by `JVal.jobj`, a
  JSON-like tree over association lists, so that presence or absence of a
  key in an output record is observable.
* The upstream JSON payload (already parsed by `json.loads`) is modelled by
  typed structures whose `Option` fields stand for keys that may be absent
  upstream; the fields are exactly the keys the Python code accesses.
* The network is modelled by a function `Nat → Except FetchExc ApiResponse`
  giving the outcome of each attempt; `FetchExc` mirrors the exception
  classes, where `HTTPError` is a *subclass* of `URLError` as it is in
  Python's `urllib.error` hierarchy.
* Machine-level effects the code has (`time.sleep`, actual sockets) are
  modelled by counting: the fetch loop returns the number of attempts made
  and the number of `sleep` calls performed.
-/

namespace FetchTweet

/-- JSON-like values, modelling Python dicts/lists/strings/numbers/booleans
as they appear in the output records built by `fetch_tweet`. -/
inductive JVal where
  | jstr (v : String)
  | jnum (v : Int)
  | jbool (v : Bool)
  | jobj (fields : List (String × JVal))
  | jarr (items : List JVal)

/-- Lookup of a key in a `jobj` (first occurrence), `none` on a missing key
or on a non-object value; models Python `d.get(k)` returning `None`. -/
def jget : JVal → String → Option JVal
  | .jobj fields, k => go fields k
  | _, _ => none
where go : List (String × JVal) → String → Option JVal
  | [], _ => none
  | (k', v) :: rest, k => if k' = k then some v else go rest k

/-- The keys of a `jobj`, in insertion order; `[]` on a non-object. -/
def jkeys : JVal → List String
  | .jobj fields => fields.map Prod.fst
  | _ => []

/-- Python truthiness for the modelled values: empty string, zero, `False`,
empty dict and empty list are falsy. -/
def truthy : JVal → Bool
  | .jstr v => !(v = "")
  | .jnum v => !(v = 0)
  | .jbool v => v
  | .jobj fields => !fields.isEmpty
  | .jarr items => !items.isEmpty

/-! ## `parse_tweet_url`

The Python function runs
`re.search(r'(?:x\.com|twitter\.com)/([a-zA-Z0-9_]{1,15})/status/(\d+)', url)`
and, on a match, re-validates the two captured groups before returning them.
We embed the regex search directly: at each start position the engine tries
the host alternation, then a greedy run of 1–15 word characters, then the
literal `/status/`, then a greedy run of at least one digit.  Since word
characters never include `/`, the greedy-with-backtracking capture of the
handle succeeds exactly when the maximal word run at that point has length
1–15 and is followed by `/status/` and a digit. -/

/-- The character class `[a-zA-Z0-9_]` (Python `\w` restricted to ASCII,
exactly the class the pattern uses). -/
def isWordChar (c : Char) : Bool :=
  (('a' ≤ c && c ≤ 'z') || ('A' ≤ c && c ≤ 'Z') || ('0' ≤ c && c ≤ '9') || c = '_')

/-- The character class `\d` of the pattern: for `str` patterns Python's
`re` matches exactly the Unicode general-category-Nd (decimal digit)
characters.  The ranges below enumerate category Nd. -/
def isDigitChar (c : Char) : Bool :=
  (0x30 ≤ c.toNat && c.toNat ≤ 0x39) ||
  (0x660 ≤ c.toNat && c.toNat ≤ 0x669) ||
  (0x6f0 ≤ c.toNat && c.toNat ≤ 0x6f9) ||
  (0x7c0 ≤ c.toNat && c.toNat ≤ 0x7c9) ||
  (0x966 ≤ c.toNat && c.toNat ≤ 0x96f) ||
  (0x9e6 ≤ c.toNat && c.toNat ≤ 0x9ef) ||
  (0xa66 ≤ c.toNat && c.toNat ≤ 0xa6f) ||
  (0xae6 ≤ c.toNat && c.toNat ≤ 0xaef) ||
  (0xb66 ≤ c.toNat && c.toNat ≤ 0xb6f) ||
  (0xbe6 ≤ c.toNat && c.toNat ≤ 0xbef) ||
  (0xc66 ≤ c.toNat && c.toNat ≤ 0xc6f) ||
  (0xce6 ≤ c.toNat && c.toNat ≤ 0xcef) ||
  (0xd66 ≤ c.toNat && c.toNat ≤ 0xd6f) ||
  (0xde6 ≤ c.toNat && c.toNat ≤ 0xdef) ||
  (0xe50 ≤ c.toNat && c.toNat ≤ 0xe59) ||
  (0xed0 ≤ c.toNat && c.toNat ≤ 0xed9) ||
  (0xf20 ≤ c.toNat && c.toNat ≤ 0xf29) ||
  (0x1040 ≤ c.toNat && c.toNat ≤ 0x1049) ||
  (0x1090 ≤ c.toNat && c.toNat ≤ 0x1099) ||
  (0x17e0 ≤ c.toNat && c.toNat ≤ 0x17e9) ||
  (0x1810 ≤ c.toNat && c.toNat ≤ 0x1819) ||
  (0x1946 ≤ c.toNat && c.toNat ≤ 0x194f) ||
  (0x19d0 ≤ c.toNat && c.toNat ≤ 0x19d9) ||
  (0x1a80 ≤ c.toNat && c.toNat ≤ 0x1a89) ||
  (0x1a90 ≤ c.toNat && c.toNat ≤ 0x1a99) ||
  (0x1b50 ≤ c.toNat && c.toNat ≤ 0x1b59) ||
  (0x1bb0 ≤ c.toNat && c.toNat ≤ 0x1bb9) ||
  (0x1c40 ≤ c.toNat && c.toNat ≤ 0x1c49) ||
  (0x1c50 ≤ c.toNat && c.toNat ≤ 0x1c59) ||
  (0xa620 ≤ c.toNat && c.toNat ≤ 0xa629) ||
  (0xa8d0 ≤ c.toNat && c.toNat ≤ 0xa8d9) ||
  (0xa900 ≤ c.toNat && c.toNat ≤ 0xa909) ||
  (0xa9d0 ≤ c.toNat && c.toNat ≤ 0xa9d9) ||
  (0xa9f0 ≤ c.toNat && c.toNat ≤ 0xa9f9) ||
  (0xaa50 ≤ c.toNat && c.toNat ≤ 0xaa59) ||
  (0xabf0 ≤ c.toNat && c.toNat ≤ 0xabf9) ||
  (0xff10 ≤ c.toNat && c.toNat ≤ 0xff19) ||
  (0x104a0 ≤ c.toNat && c.toNat ≤ 0x104a9) ||
  (0x10d30 ≤ c.toNat && c.toNat ≤ 0x10d39) ||
  (0x11066 ≤ c.toNat && c.toNat ≤ 0x1106f) ||
  (0x110f0 ≤ c.toNat && c.toNat ≤ 0x110f9) ||
  (0x11136 ≤ c.toNat && c.toNat ≤ 0x1113f) ||
  (0x111d0 ≤ c.toNat && c.toNat ≤ 0x111d9) ||
  (0x112f0 ≤ c.toNat && c.toNat ≤ 0x112f9) ||
  (0x11450 ≤ c.toNat && c.toNat ≤ 0x11459) ||
  (0x114d0 ≤ c.toNat && c.toNat ≤ 0x114d9) ||
  (0x11650 ≤ c.toNat && c.toNat ≤ 0x11659) ||
  (0x116c0 ≤ c.toNat && c.toNat ≤ 0x116c9) ||
  (0x11730 ≤ c.toNat && c.toNat ≤ 0x11739) ||
  (0x118e0 ≤ c.toNat && c.toNat ≤ 0x118e9) ||
  (0x11950 ≤ c.toNat && c.toNat ≤ 0x11959) ||
  (0x11c50 ≤ c.toNat && c.toNat ≤ 0x11c59) ||
  (0x11d50 ≤ c.toNat && c.toNat ≤ 0x11d59) ||
  (0x11da0 ≤ c.toNat && c.toNat ≤ 0x11da9) ||
  (0x16a60 ≤ c.toNat && c.toNat ≤ 0x16a69) ||
  (0x16ac0 ≤ c.toNat && c.toNat ≤ 0x16ac9) ||
  (0x16b50 ≤ c.toNat && c.toNat ≤ 0x16b59) ||
  (0x1d7ce ≤ c.toNat && c.toNat ≤ 0x1d7ff) ||
  (0x1e140 ≤ c.toNat && c.toNat ≤ 0x1e149) ||
  (0x1e2f0 ≤ c.toNat && c.toNat ≤ 0x1e2f9) ||
  (0x1e950 ≤ c.toNat && c.toNat ≤ 0x1e959) ||
  (0x1fbf0 ≤ c.toNat && c.toNat ≤ 0x1fbf9)

/-- The characters `str.isdigit()` accepts *beyond* category Nd (digit-like
characters such as superscripts and circled digits). -/
def digitExtraChar (c : Char) : Bool :=
  (0xb2 ≤ c.toNat && c.toNat ≤ 0xb3) ||
  c.toNat = 0xb9 ||
  (0x1369 ≤ c.toNat && c.toNat ≤ 0x1371) ||
  c.toNat = 0x19da ||
  c.toNat = 0x2070 ||
  (0x2074 ≤ c.toNat && c.toNat ≤ 0x2079) ||
  (0x2080 ≤ c.toNat && c.toNat ≤ 0x2089) ||
  (0x2460 ≤ c.toNat && c.toNat ≤ 0x2468) ||
  (0x2474 ≤ c.toNat && c.toNat ≤ 0x247c) ||
  (0x2488 ≤ c.toNat && c.toNat ≤ 0x2490) ||
  c.toNat = 0x24ea ||
  (0x24f5 ≤ c.toNat && c.toNat ≤ 0x24fd) ||
  c.toNat = 0x24ff ||
  (0x2776 ≤ c.toNat && c.toNat ≤ 0x277e) ||
  (0x2780 ≤ c.toNat && c.toNat ≤ 0x2788) ||
  (0x278a ≤ c.toNat && c.toNat ≤ 0x2792) ||
  (0x10a40 ≤ c.toNat && c.toNat ≤ 0x10a43) ||
  (0x10e60 ≤ c.toNat && c.toNat ≤ 0x10e68) ||
  (0x11052 ≤ c.toNat && c.toNat ≤ 0x1105a) ||
  (0x1f100 ≤ c.toNat && c.toNat ≤ 0x1f10a)

/-- Per-character test of Python `str.isdigit()`: true on category Nd plus
the extra digit-like characters. -/
def isPyDigit (c : Char) : Bool :=
  isDigitChar c || digitExtraChar c

/-- The whitespace characters `str.split()` (and `str.isspace()`) separate
on: the ASCII whitespace controls, NEL, NBSP and the Unicode spaces. -/
def isPySpace (c : Char) : Bool :=
  (0x9 ≤ c.toNat && c.toNat ≤ 0xd) ||
  (0x1c ≤ c.toNat && c.toNat ≤ 0x20) ||
  c.toNat = 0x85 ||
  c.toNat = 0xa0 ||
  c.toNat = 0x1680 ||
  (0x2000 ≤ c.toNat && c.toNat ≤ 0x200a) ||
  (0x2028 ≤ c.toNat && c.toNat ≤ 0x2029) ||
  c.toNat = 0x202f ||
  c.toNat = 0x205f ||
  c.toNat = 0x3000

/-- Strip a literal pattern from the front of a list, returning the
remainder when the list starts with the pattern. -/
def stripLit : List Char → List Char → Option (List Char)
  | [], l => some l
  | _ :: _, [] => none
  | c :: cs, x :: xs => if x = c then stripLit cs xs else none

/-- The characters of the first host alternative, `x.com/`. -/
def xcomChars : List Char := ['x', '.', 'c', 'o', 'm', '/']

/-- The characters of the second host alternative, `twitter.com/`. -/
def twitterChars : List Char :=
  ['t', 'w', 'i', 't', 't', 'e', 'r', '.', 'c', 'o', 'm', '/']

/-- The characters of the literal `/status/` between the two groups. -/
def statusChars : List Char := ['/', 's', 't', 'a', 't', 'u', 's', '/']

/-- Match the host alternation `(?:x\.com|twitter\.com)/` at the start of the
list (first alternative tried first), returning the remainder after the
trailing slash. -/
def afterHost (l : List Char) : Option (List Char) :=
  match stripLit xcomChars l with
  | some rest => some rest
  | none => stripLit twitterChars l

/-- Match `([a-zA-Z0-9_]{1,15})/status/(\d+)` at the start of the list,
returning the two captured groups.  The greedy capture of 1–15 word
characters followed by the literal `/` succeeds (after backtracking)
exactly when the maximal word-character run has length 1–15, since a
shorter capture would have to be followed by a word character, never `/`. -/
def matchTail (l : List Char) : Option (List Char × List Char) :=
  if (l.takeWhile isWordChar).length = 0 ∨ 15 < (l.takeWhile isWordChar).length then none
  else
    match stripLit statusChars (l.dropWhile isWordChar) with
    | some r =>
        if (r.takeWhile isDigitChar).length = 0 then none
        else some (l.takeWhile isWordChar, r.takeWhile isDigitChar)
    | none => none

/-- Match the whole pattern at one start position. -/
def headMatch (l : List Char) : Option (List Char × List Char) :=
  match afterHost l with
  | some r => matchTail r
  | none => none

/-- `re.search`: scan left to right for the first start position at which the
whole pattern matches; return the captures of that leftmost match. -/
def searchPattern : List Char → Option (List Char × List Char)
  | [] => none
  | c :: rest =>
      match headMatch (c :: rest) with
      | some captures => some captures
      | none => searchPattern rest

/-- `re.match(r'^[a-zA-Z0-9_]{1,15}$', username)`: the whole string is 1–15
word characters. -/
def validUsername (u : List Char) : Bool :=
  1 ≤ u.length && u.length ≤ 15 && u.all isWordChar

/-- Python `str.isdigit()`: nonempty and every character digit-like. -/
def allDigits (d : List Char) : Bool :=
  d.length ≠ 0 && d.all isPyDigit

/-- Embedding of `parse_tweet_url`: search for the pattern, then run the
(re-)validation of the captured username and tweet id; raise `ValueError`
(modelled by `Except.error`) when the search or a validation fails. -/
def parse_tweet_url (url : String) : Except String (String × String) :=
  match searchPattern url.data with
  | some (username, tweet_id) =>
      if validUsername username then
        if allDigits tweet_id then
          .ok (⟨username⟩, ⟨tweet_id⟩)
        else .error ("Invalid tweet ID format: " ++ (⟨tweet_id⟩ : String))
      else .error ("Invalid username format: " ++ (⟨username⟩ : String))
  | none => .error ("Cannot parse tweet URL: " ++ url)

/-- Specification-side predicate: the regex pattern *occurs* somewhere in
the string, i.e. the string decomposes around a host alternative, a 1–15
word-character handle, the literal `/status/` and a nonempty digit run. -/
def PatternOccurs (s : List Char) : Prop :=
  ∃ pre host handle digits suf,
    s = pre ++ host ++ handle ++ statusChars ++ digits ++ suf ∧
    (host = xcomChars ∨ host = twitterChars) ∧
    1 ≤ handle.length ∧ handle.length ≤ 15 ∧ handle.all isWordChar ∧
    1 ≤ digits.length ∧ digits.all isDigitChar

/-! ## The upstream payload

Typed model of the JSON value returned by the FxTwitter endpoint, with
`Option` fields standing for keys that may be absent upstream.  Only the
keys the Python code accesses are modelled. -/

/-- An `author` sub-object (`tweet.get("author", {})`). -/
structure AuthorJson where
  name : Option String
  screen_name : Option String

/-- An item of `media.all`; the code reads its `type`, `url`, `width` and
`height` keys. -/
structure MediaItem where
  type : Option String
  url : Option String
  width : Option Int
  height : Option Int

/-- A video variant (`video.get("variants")` items). -/
structure VariantJson where
  url : Option String
  bitrate : Option Int
  content_type : Option String

/-- An item of `media.videos`. -/
structure VideoJson where
  url : Option String
  duration : Option Int
  thumbnail_url : Option String
  variants : Option (List VariantJson)

/-- The `media` sub-object of a tweet. -/
structure MediaJson where
  all : Option (List MediaItem)
  videos : Option (List VideoJson)

/-- One content block of an article (`b.get("text", "")`). -/
structure BlockJson where
  text : Option String

/-- The `content` sub-object of an article (`content.get("blocks", [])`). -/
structure ContentJson where
  blocks : Option (List BlockJson)

/-- The `article` sub-object of a tweet. -/
structure ArticleJson where
  title : Option String
  preview_text : Option String
  created_at : Option String
  content : Option ContentJson

/-- The `quote` sub-object of a tweet; the code reads only these keys from
it.  `some` models a present (and truthy) quote dict. -/
structure QuoteJson where
  text : Option String
  author : Option AuthorJson
  likes : Option Int
  retweets : Option Int
  views : Option Int
  media : Option MediaJson

/-- The `tweet` object of the response. -/
structure TweetJson where
  text : Option String
  author : Option AuthorJson
  likes : Option Int
  retweets : Option Int
  bookmarks : Option Int
  views : Option Int
  replies : Option Int
  created_at : Option String
  is_note_tweet : Option Bool
  lang : Option String
  media : Option MediaJson
  quote : Option QuoteJson
  article : Option ArticleJson

/-- The top-level JSON body of a (transport-successful) response. -/
structure ApiResponse where
  code : Option Int
  message : Option String
  tweet : Option TweetJson

/-! ## `extract_media` -/

/-- Python truthiness of an optional string value (`if d.get(k):`): present
and nonempty. -/
def strTruthy : Option String → Bool
  | some s => !(s = "")
  | none => false

/-- Python truthiness of an optional integer value: present and nonzero. -/
def intTruthy : Option Int → Bool
  | some n => !(n = 0)
  | none => false

/-- One entry of `media_data["images"]`: `{"url": ...}` plus `width` and
`height` when truthy. -/
def buildImage (photo : MediaItem) : JVal :=
  .jobj ([("url", .jstr (photo.url.getD ""))] ++
    (if intTruthy photo.width then [("width", JVal.jnum (photo.width.getD 0))] else []) ++
    (if intTruthy photo.height then [("height", JVal.jnum (photo.height.getD 0))] else []))

/-- The entries of a `variant_info` dict: `url`, `bitrate`, `content_type`,
each only when truthy. -/
def buildVariant (variant : VariantJson) : List (String × JVal) :=
  (if strTruthy variant.url then [("url", JVal.jstr (variant.url.getD ""))] else []) ++
  (if intTruthy variant.bitrate then [("bitrate", JVal.jnum (variant.bitrate.getD 0))] else []) ++
  (if strTruthy variant.content_type then
      [("content_type", JVal.jstr (variant.content_type.getD ""))] else [])

/-- The entries of a `video_info` dict: `url`, `duration`, `thumbnail` and
`variants` when truthy; the `variants` list keeps only nonempty
`variant_info` dicts. -/
def buildVideo (video : VideoJson) : List (String × JVal) :=
  (if strTruthy video.url then [("url", JVal.jstr (video.url.getD ""))] else []) ++
  (if intTruthy video.duration then [("duration", JVal.jnum (video.duration.getD 0))] else []) ++
  (if strTruthy video.thumbnail_url then
      [("thumbnail", JVal.jstr (video.thumbnail_url.getD ""))] else []) ++
  (match video.variants with
   | some variants =>
       if variants.isEmpty then []
       else [("variants", JVal.jarr (variants.filterMap (fun v =>
          let fields := buildVariant v
          if fields.isEmpty then none else some (JVal.jobj fields))))]
   | none => [])

/-- Embedding of `extract_media`, applied to the object's `media` field
(the only key of `tweet_obj` the Python function reads).  Returns `none`
for Python `None` (an empty `media_data`). -/
def extract_media (m : Option MediaJson) : Option JVal :=
  let media := m.getD ⟨none, none⟩
  let all_media := media.all.getD []
  let imagesEntry :=
    if all_media.isEmpty then []
    else
      let photos := all_media.filter (fun item => item.type == some "photo")
      if photos.isEmpty then []
      else [("images", JVal.jarr (photos.map buildImage))]
  let videos := media.videos.getD []
  let videosEntry :=
    if videos.isEmpty then []
    else [("videos", JVal.jarr (videos.filterMap (fun v =>
      let fields := buildVideo v
      if fields.isEmpty then none else some (JVal.jobj fields))))]
  let media_data := imagesEntry ++ videosEntry
  if media_data.isEmpty then none else some (.jobj media_data)

/-! ## Building the output records -/

/-- The non-empty block texts, in order (`b.get("text", "") for b in blocks
if b.get("text", "")`). -/
def blockTexts (blocks : List BlockJson) : List String :=
  blocks.filterMap (fun b =>
    match b.text with
    | some s => if s = "" then none else some s
    | none => none)

/-- `"\n\n".join(...)` over the nonempty block texts. -/
def joinBlocks (blocks : List BlockJson) : String :=
  String.intercalate "\n\n" (blockTexts blocks)

/-- Count the maximal nonempty runs of non-`isPySpace` characters; the
boolean records whether the previous character belonged to a run. -/
def wordCountAux : List Char → Bool → Nat
  | [], _ => 0
  | c :: rest, inWord =>
      if isPySpace c then wordCountAux rest false
      else (if inWord then 0 else 1) + wordCountAux rest true

/-- Python `len(s.split())`: `split()` with no separator yields the maximal
nonempty runs of non-whitespace characters, so its length is the number of
such runs. -/
def pyWordCount (s : String) : Nat :=
  wordCountAux s.data false

/-- The `article_data` dict: `title`, `preview_text`, `created_at` always;
`full_text`, `word_count`, `char_count` only when the blocks list is
truthy (nonempty). -/
def buildArticle (article : ArticleJson) : JVal :=
  let base : List (String × JVal) :=
    [("title", .jstr (article.title.getD "")),
     ("preview_text", .jstr (article.preview_text.getD "")),
     ("created_at", .jstr (article.created_at.getD ""))]
  let blocks := (article.content.getD ⟨none⟩).blocks.getD []
  if blocks.isEmpty then .jobj base
  else
    let full_text := joinBlocks blocks
    .jobj (base ++
      [("full_text", .jstr full_text),
       ("word_count", .jnum (pyWordCount full_text)),
       ("char_count", .jnum full_text.length)])

/-- The nested quote dict: six fixed entries plus `media` when
`extract_media` yields something. -/
def buildQuote (qt : QuoteJson) : JVal :=
  let base : List (String × JVal) :=
    [("text", .jstr (qt.text.getD "")),
     ("author", .jstr ((qt.author.bind AuthorJson.name).getD "")),
     ("screen_name", .jstr ((qt.author.bind AuthorJson.screen_name).getD "")),
     ("likes", .jnum (qt.likes.getD 0)),
     ("retweets", .jnum (qt.retweets.getD 0)),
     ("views", .jnum (qt.views.getD 0))]
  match extract_media qt.media with
  | some m => .jobj (base ++ [("media", m)])
  | none => .jobj base

/-- The `tweet_data` dict built on the success path (lines 112–167 of the
script): eleven fixed entries, then optional `media`, optional `quote`,
then either `article` + `is_article = true` or `is_article = false`. -/
def buildTweetData (tweet : TweetJson) : JVal :=
  let base : List (String × JVal) :=
    [("text", .jstr (tweet.text.getD "")),
     ("author", .jstr ((tweet.author.bind AuthorJson.name).getD "")),
     ("screen_name", .jstr ((tweet.author.bind AuthorJson.screen_name).getD "")),
     ("likes", .jnum (tweet.likes.getD 0)),
     ("retweets", .jnum (tweet.retweets.getD 0)),
     ("bookmarks", .jnum (tweet.bookmarks.getD 0)),
     ("views", .jnum (tweet.views.getD 0)),
     ("replies_count", .jnum (tweet.replies.getD 0)),
     ("created_at", .jstr (tweet.created_at.getD "")),
     ("is_note_tweet", .jbool (tweet.is_note_tweet.getD false)),
     ("lang", .jstr (tweet.lang.getD ""))]
  let mediaEntry :=
    match extract_media tweet.media with
    | some m => [("media", m)]
    | none => []
  let quoteEntry :=
    match tweet.quote with
    | some qt => [("quote", buildQuote qt)]
    | none => []
  let articleEntry :=
    match tweet.article with
    | some a => [("article", buildArticle a), ("is_article", JVal.jbool true)]
    | none => [("is_article", JVal.jbool false)]
  .jobj (base ++ mediaEntry ++ quoteEntry ++ articleEntry)

/-! ## `fetch_tweet`: exceptions, the retry loop, and the result -/

/-- The exceptions the `try` block can raise.  `httpErr` models
`urllib.error.HTTPError`, `urlErr` a transport-level `urllib.error.URLError`
(DNS/connection failure), `otherExc` any other `Exception`. -/
inductive FetchExc where
  | httpErr (code : Int) (reason : String)
  | urlErr (reason : String)
  | otherExc

/-- Whether `except urllib.error.URLError` catches the exception.  In
Python's class hierarchy `HTTPError` is a subclass of `URLError`, so it is
caught here too. -/
def FetchExc.isURLError : FetchExc → Bool
  | .httpErr _ _ => true
  | .urlErr _ => true
  | .otherExc => false

/-- Whether `except urllib.error.HTTPError` catches the exception. -/
def FetchExc.isHTTPError : FetchExc → Bool
  | .httpErr _ _ => true
  | _ => false

/-- The message `f"HTTP {e.code}: {e.reason}"` of the `HTTPError` handler. -/
def FetchExc.httpMsg : FetchExc → String
  | .httpErr code reason => "HTTP " ++ toString code ++ ": " ++ reason
  | _ => ""

/-- The result dict: `url`, `username`, `tweet_id` always present; `error`
and `tweet` optional. -/
structure FetchResult where
  url : String
  username : String
  tweet_id : String
  error : Option String := none
  tweet : Option JVal := none

/-- Python `repr`-in-f-string of `data.get("code")`: the integer, or `None`
when the key is absent. -/
def codeRepr : Option Int → String
  | some n => toString n
  | none => "None"

/-- The body of the `try` block after a successful `urlopen` + `json.loads`:
check the top-level `code`, then build `tweet_data` from `data["tweet"]`.
A missing `tweet` key raises `KeyError`, which the blanket
`except Exception` turns into the generic error message. -/
def processResponse (result : FetchResult) (data : ApiResponse) : FetchResult :=
  if data.code = some 200 then
    match data.tweet with
    | some t => { result with tweet := some (buildTweetData t) }
    | none =>
        { result with error := some "An unexpected error occurred while fetching the tweet" }
  else
    { result with error := some ("FxTwitter returned code " ++ codeRepr data.code ++ ": " ++
        (data.message.getD "Unknown")) }

/-- The `for attempt in range(max_attempts)` loop.  `remaining` is the
number of loop iterations left (structurally decreasing), `attempt` the
current index, `sleeps` the number of `time.sleep(1)` calls made so far.
Returns the result together with the total number of request attempts made
and the total number of sleeps.  A `URLError` on a non-final attempt sleeps
and continues; on the final attempt it yields the network-error message.
The `HTTPError` arm mirrors the second `except` clause, and the last arm
the blanket `except Exception`. -/
def attemptLoop (responses : Nat → Except FetchExc ApiResponse) (result : FetchResult) :
    Nat → Nat → Nat → FetchResult × Nat × Nat
  | 0, attempt, sleeps => (result, attempt, sleeps)
  | remaining + 1, attempt, sleeps =>
      match responses attempt with
      | .ok data => (processResponse result data, attempt + 1, sleeps)
      | .error e =>
          if e.isURLError then
            if remaining = 0 then
              ({ result with
                  error := some "Network error: Failed to fetch tweet after retry" },
               attempt + 1, sleeps)
            else
              attemptLoop responses result remaining (attempt + 1) (sleeps + 1)
          else if e.isHTTPError then
            ({ result with error := some e.httpMsg }, attempt + 1, sleeps)
          else
            ({ result with
                error := some "An unexpected error occurred while fetching the tweet" },
             attempt + 1, sleeps)

/-- Embedding of `fetch_tweet`, instrumented: returns the result together
with the number of attempts made and the number of sleeps.  The
`ValueError` of `parse_tweet_url` is raised *before* the `try` block, so it
propagates out (modelled by `Except.error`). -/
def fetch_tweet_run (url : String) (responses : Nat → Except FetchExc ApiResponse) :
    Except String (FetchResult × Nat × Nat) :=
  match parse_tweet_url url with
  | .error m => .error m
  | .ok (username, tweet_id) =>
      .ok (attemptLoop responses { url := url, username := username, tweet_id := tweet_id } 2 0 0)

/-- Embedding of `fetch_tweet` proper: just the returned result dict. -/
def fetch_tweet (url : String) (responses : Nat → Except FetchExc ApiResponse) :
    Except String FetchResult :=
  (fetch_tweet_run url responses).map Prod.fst

/-! ## The `--text-only` branch of `main` -/

/-- Python truthiness of `d.get(k)` on the modelled dicts: `None` (missing
key) is falsy. -/
def optTruthy : Option JVal → Bool
  | some v => truthy v
  | none => false

/-- The observable outcome of the `--text-only` branch of `main`. -/
inductive CliAction where
  | articleText
  | tweetText
  | errorExit (msg : String)
  | silent

/-- Embedding of the `if args.text_only:` branch (lines 213–227): prefer
the article full text, else the tweet text, else print the error to stderr
and exit 1 when `result` carries a truthy `error`; otherwise fall through
printing nothing. -/
def textOnlyAction (result : FetchResult) : CliAction :=
  let tweet := result.tweet.getD (.jobj [])
  let articleObj := (jget tweet "article").getD (.jobj [])
  if optTruthy (jget tweet "is_article") && optTruthy (jget articleObj "full_text") then
    .articleText
  else if optTruthy (jget tweet "text") then
    .tweetText
  else if strTruthy result.error then
    .errorExit ("Error: " ++ result.error.getD "")
  else
    .silent

/-! ## Lemmas about the pattern search -/

lemma stripLit_eq_some (pat : List Char) : ∀ l r : List Char,
    stripLit pat l = some r ↔ l = pat ++ r := by
  induction pat with
  | nil => intro l r; simp [stripLit]
  | cons c cs ih =>
      intro l r
      cases l with
      | nil => simp [stripLit]
      | cons x xs =>
          simp only [stripLit]
          by_cases hx : x = c
          · subst hx
            simp [ih]
          · simp [hx]

lemma afterHost_eq_some (l r : List Char) :
    afterHost l = some r ↔ (l = xcomChars ++ r ∨ l = twitterChars ++ r) := by
  unfold afterHost
  cases h : stripLit xcomChars l with
  | some r' =>
      rw [stripLit_eq_some] at h
      subst h
      constructor
      · intro hr
        left
        simpa using hr
      · rintro (hr | hr)
        · simp only [List.append_cancel_left_eq] at hr
          simp [hr]
        · exfalso
          rw [xcomChars, twitterChars] at hr
          simp only [List.cons_append] at hr
          injection hr with h1 _
          exact absurd h1 (by decide)
  | none =>
      rw [stripLit_eq_some]
      constructor
      · intro hr
        right
        exact hr
      · rintro (hr | hr)
        · exfalso
          have h2 := (stripLit_eq_some xcomChars l r).mpr hr
          rw [h2] at h
          cases h
        · exact hr

lemma all_takeWhile (p : Char → Bool) (l : List Char) :
    (l.takeWhile p).all p = true := by
  induction l with
  | nil => rfl
  | cons c cs ih =>
      by_cases hp : p c
      · simp [List.takeWhile_cons, hp, ih]
      · simp [List.takeWhile_cons, hp]

lemma takeWhile_append_all (p : Char → Bool) {l₁ : List Char} (l₂ : List Char)
    (h : l₁.all p = true) : (l₁ ++ l₂).takeWhile p = l₁ ++ l₂.takeWhile p := by
  induction l₁ with
  | nil => simp
  | cons c cs ih =>
      simp only [List.all_cons, Bool.and_eq_true] at h
      simp [List.takeWhile_cons, h.1, ih h.2]

lemma dropWhile_append_all (p : Char → Bool) {l₁ : List Char} (l₂ : List Char)
    (h : l₁.all p = true) : (l₁ ++ l₂).dropWhile p = l₂.dropWhile p := by
  induction l₁ with
  | nil => simp
  | cons c cs ih =>
      simp only [List.all_cons, Bool.and_eq_true] at h
      simp [List.dropWhile_cons, h.1, ih h.2]

lemma matchTail_eq_some {l u d : List Char} (h : matchTail l = some (u, d)) :
    1 ≤ u.length ∧ u.length ≤ 15 ∧ u.all isWordChar = true ∧
    1 ≤ d.length ∧ d.all isDigitChar = true ∧
    ∃ suf, l = u ++ statusChars ++ d ++ suf := by
  unfold matchTail at h
  split at h
  · exact Option.noConfusion h
  · next hguard =>
    split at h
    · next r heq =>
      split at h
      · exact Option.noConfusion h
      · next hd0 =>
        simp only [Option.some_inj, Prod.mk.injEq] at h
        obtain ⟨hu, hdd⟩ := h
        subst hu
        subst hdd
        push_neg at hguard
        refine ⟨by omega, by omega, all_takeWhile _ _, by omega, all_takeWhile _ _,
          r.dropWhile isDigitChar, ?_⟩
        rw [stripLit_eq_some] at heq
        conv_lhs => rw [← List.takeWhile_append_dropWhile (p := isWordChar) (l := l)]
        rw [heq]
        conv_lhs => rw [← List.takeWhile_append_dropWhile (p := isDigitChar) (l := r)]
        simp [List.append_assoc]
    · exact Option.noConfusion h

lemma matchTail_isSome_of {handle digits : List Char} (suf : List Char)
    (hw : handle.all isWordChar = true) (h1 : 1 ≤ handle.length) (h15 : handle.length ≤ 15)
    (hd : digits.all isDigitChar = true) (hd1 : 1 ≤ digits.length) :
    (matchTail (handle ++ (statusChars ++ (digits ++ suf)))).isSome = true := by
  have htake : (handle ++ (statusChars ++ (digits ++ suf))).takeWhile isWordChar = handle := by
    rw [takeWhile_append_all _ _ hw, statusChars]
    simp [List.takeWhile_cons, isWordChar]
  have hdrop : (handle ++ (statusChars ++ (digits ++ suf))).dropWhile isWordChar =
      statusChars ++ (digits ++ suf) := by
    rw [dropWhile_append_all _ _ hw, statusChars]
    simp [List.dropWhile_cons, isWordChar]
  have hstrip : stripLit statusChars (statusChars ++ (digits ++ suf)) = some (digits ++ suf) :=
    (stripLit_eq_some _ _ _).mpr rfl
  have hguard : ¬(handle.length = 0 ∨ 15 < handle.length) := by omega
  unfold matchTail
  rw [htake, hdrop]
  simp only [hguard, if_false, hstrip]
  cases digits with
  | nil => simp at hd1
  | cons d0 ds =>
      simp only [List.all_cons, Bool.and_eq_true] at hd
      simp [List.cons_append, List.takeWhile_cons, hd.1]

lemma headMatch_of_afterHost_some {l r : List Char} (h : afterHost l = some r) :
    headMatch l = matchTail r := by
  simp [headMatch, h]

lemma headMatch_of_afterHost_none {l : List Char} (h : afterHost l = none) :
    headMatch l = none := by
  simp [headMatch, h]

lemma searchPattern_cons (c : Char) (rest : List Char) :
    searchPattern (c :: rest) =
      match headMatch (c :: rest) with
      | some captures => some captures
      | none => searchPattern rest := rfl

lemma searchPattern_cons_of_some {c : Char} {rest : List Char}
    {captures : List Char × List Char} (h : headMatch (c :: rest) = some captures) :
    searchPattern (c :: rest) = some captures := by
  rw [searchPattern_cons, h]

lemma searchPattern_cons_of_none {c : Char} {rest : List Char}
    (h : headMatch (c :: rest) = none) :
    searchPattern (c :: rest) = searchPattern rest := by
  rw [searchPattern_cons, h]

lemma searchPattern_isSome_cons {c : Char} {rest : List Char}
    (h : (searchPattern rest).isSome = true) :
    (searchPattern (c :: rest)).isSome = true := by
  cases hm : headMatch (c :: rest) with
  | some captures => rw [searchPattern_cons_of_some hm]; rfl
  | none => rw [searchPattern_cons_of_none hm]; exact h

/-- Category-Nd digits (what `\d` captures) all pass `str.isdigit()`. -/
lemma all_isPyDigit_of_all_isDigitChar {d : List Char}
    (h : d.all isDigitChar = true) : d.all isPyDigit = true := by
  rw [List.all_eq_true] at h ⊢
  intro x hx
  simp [isPyDigit, h x hx]

lemma searchPattern_props {s u d : List Char} (h : searchPattern s = some (u, d)) :
    validUsername u = true ∧ allDigits d = true ∧ d.all isDigitChar = true := by
  induction s with
  | nil => exact Option.noConfusion h
  | cons c rest ih =>
      cases hm : headMatch (c :: rest) with
      | none =>
          rw [searchPattern_cons_of_none hm] at h
          exact ih h
      | some captures =>
          rw [searchPattern_cons_of_some hm] at h
          cases ha : afterHost (c :: rest) with
          | none => rw [headMatch_of_afterHost_none ha] at hm; exact Option.noConfusion hm
          | some r =>
              rw [headMatch_of_afterHost_some ha] at hm
              rw [h] at hm
              obtain ⟨h1, h15, hw, hd1, hda, _⟩ := matchTail_eq_some hm
              refine ⟨?_, ?_, hda⟩
              · simp [validUsername, h1, h15, hw]
              · simp only [allDigits, Bool.and_eq_true, decide_eq_true_eq]
                exact ⟨by omega, all_isPyDigit_of_all_isDigitChar hda⟩

lemma searchPattern_some_occurs {s u d : List Char}
    (h : searchPattern s = some (u, d)) : PatternOccurs s := by
  induction s with
  | nil => exact Option.noConfusion h
  | cons c rest ih =>
      cases hm : headMatch (c :: rest) with
      | none =>
          rw [searchPattern_cons_of_none hm] at h
          obtain ⟨pre, host, handle, digits, suf, hs, hrest⟩ := ih h
          exact ⟨c :: pre, host, handle, digits, suf,
            by simp [hs, List.append_assoc], hrest⟩
      | some captures =>
          rw [searchPattern_cons_of_some hm] at h
          cases ha : afterHost (c :: rest) with
          | none => rw [headMatch_of_afterHost_none ha] at hm; exact Option.noConfusion hm
          | some r =>
              rw [headMatch_of_afterHost_some ha] at hm
              rw [h] at hm
              obtain ⟨h1, h15, hw, hd1, hda, suf, hsuf⟩ := matchTail_eq_some hm
              have hh := (afterHost_eq_some (c :: rest) r).mp ha
              rcases hh with hh | hh
              · exact ⟨[], xcomChars, u, d, suf,
                  by rw [hh, hsuf]; simp [List.append_assoc], Or.inl rfl,
                  h1, h15, hw, hd1, hda⟩
              · exact ⟨[], twitterChars, u, d, suf,
                  by rw [hh, hsuf]; simp [List.append_assoc], Or.inr rfl,
                  h1, h15, hw, hd1, hda⟩

lemma occurs_searchPattern_isSome {s : List Char} (h : PatternOccurs s) :
    (searchPattern s).isSome = true := by
  obtain ⟨pre, host, handle, digits, suf, hs, hhost, h1, h15, hw, hd1, hda⟩ := h
  subst hs
  induction pre with
  | nil =>
      have hmt := matchTail_isSome_of suf hw h1 h15 hda hd1
      obtain ⟨captures, hmm⟩ := Option.isSome_iff_exists.mp hmt
      rcases hhost with hh | hh
      · subst hh
        rw [show ([] : List Char) ++ xcomChars ++ handle ++ statusChars ++ digits ++ suf =
            'x' :: ('.' :: 'c' :: 'o' :: 'm' :: '/' ::
              (handle ++ (statusChars ++ (digits ++ suf)))) from by
          simp [xcomChars, List.append_assoc]]
        have ha : afterHost ('x' :: ('.' :: 'c' :: 'o' :: 'm' :: '/' ::
            (handle ++ (statusChars ++ (digits ++ suf))))) =
            some (handle ++ (statusChars ++ (digits ++ suf))) :=
          (afterHost_eq_some _ _).mpr (Or.inl (by simp [xcomChars]))
        rw [searchPattern_cons_of_some ((headMatch_of_afterHost_some ha).trans hmm)]
        rfl
      · subst hh
        rw [show ([] : List Char) ++ twitterChars ++ handle ++ statusChars ++ digits ++ suf =
            't' :: ('w' :: 'i' :: 't' :: 't' :: 'e' :: 'r' :: '.' :: 'c' :: 'o' :: 'm' :: '/' ::
              (handle ++ (statusChars ++ (digits ++ suf)))) from by
          simp [twitterChars, List.append_assoc]]
        have ha : afterHost ('t' :: ('w' :: 'i' :: 't' :: 't' :: 'e' :: 'r' :: '.' :: 'c' ::
            'o' :: 'm' :: '/' :: (handle ++ (statusChars ++ (digits ++ suf))))) =
            some (handle ++ (statusChars ++ (digits ++ suf))) :=
          (afterHost_eq_some _ _).mpr (Or.inr (by simp [twitterChars]))
        rw [searchPattern_cons_of_some ((headMatch_of_afterHost_some ha).trans hmm)]
        rfl
  | cons c pre' ih =>
      have hrw : (c :: pre') ++ host ++ handle ++ statusChars ++ digits ++ suf =
          c :: (pre' ++ host ++ handle ++ statusChars ++ digits ++ suf) := by
        simp [List.cons_append]
      rw [hrw]
      exact searchPattern_isSome_cons ih

/-- The search succeeds exactly when the pattern occurs in the string. -/
lemma searchPattern_isSome_iff (s : List Char) :
    (searchPattern s).isSome = true ↔ PatternOccurs s := by
  constructor
  · intro h
    obtain ⟨⟨u, d⟩, hm⟩ := Option.isSome_iff_exists.mp h
    exact searchPattern_some_occurs hm
  · exact occurs_searchPattern_isSome

lemma parse_of_search_some {url : String} {u d : List Char}
    (h : searchPattern url.data = some (u, d)) :
    parse_tweet_url url = .ok (⟨u⟩, ⟨d⟩) := by
  obtain ⟨hv, hdv, _⟩ := searchPattern_props h
  simp [parse_tweet_url, h, hv, hdv]

lemma parse_of_search_none {url : String} (h : searchPattern url.data = none) :
    parse_tweet_url url = .error ("Cannot parse tweet URL: " ++ url) := by
  simp [parse_tweet_url, h]

end FetchTweet

namespace FetchTweet

/-- C1: for every URL string in which the expected pattern occurs,
`parse_tweet_url` returns a handle of length 1–15 drawn only from
`[A-Za-z0-9_]` and a post id consisting only of decimal digits; for every
URL string in which no pattern occurs, it fails with a `ValueError` rather
than returning. -/
theorem parse_tweet_url_spec (url : String) :
    (PatternOccurs url.data →
      ∃ handle post_id, parse_tweet_url url = .ok (handle, post_id) ∧
        1 ≤ handle.length ∧ handle.length ≤ 15 ∧
        handle.data.all isWordChar = true ∧
        1 ≤ post_id.length ∧ post_id.data.all isDigitChar = true) ∧
    (¬ PatternOccurs url.data →
      ∃ msg, parse_tweet_url url = .error msg) := by
  constructor
  · intro hocc
    obtain ⟨⟨u, d⟩, hm⟩ :=
      Option.isSome_iff_exists.mp (occurs_searchPattern_isSome hocc)
    obtain ⟨hv, hdv, hnd⟩ := searchPattern_props hm
    simp only [validUsername, Bool.and_eq_true, decide_eq_true_eq] at hv
    simp only [allDigits, Bool.and_eq_true, decide_eq_true_eq] at hdv
    exact ⟨⟨u⟩, ⟨d⟩, parse_of_search_some hm, hv.1.1, hv.1.2, hv.2,
      Nat.one_le_iff_ne_zero.mpr hdv.1, hnd⟩
  · intro hnocc
    cases hm : searchPattern url.data with
    | some captures =>
        obtain ⟨u, d⟩ := captures
        exact absurd (searchPattern_some_occurs hm) hnocc
    | none => exact ⟨_, parse_of_search_none hm⟩

/-- Witness for C1 at concrete inputs: `https://x.com/bob/status/42`
matches the pattern and parses; `nope` contains no pattern occurrence and
fails. -/
theorem parse_tweet_url_spec_witness :
    (∃ handle post_id,
        parse_tweet_url "https://x.com/bob/status/42" = .ok (handle, post_id) ∧
        1 ≤ handle.length ∧ handle.length ≤ 15 ∧
        handle.data.all isWordChar = true ∧
        1 ≤ post_id.length ∧ post_id.data.all isDigitChar = true) ∧
    (∃ msg, parse_tweet_url "nope" = .error msg) := by
  constructor
  · exact (parse_tweet_url_spec "https://x.com/bob/status/42").1
      ⟨"https://".data, xcomChars, "bob".data, "42".data, [],
        by decide, Or.inl rfl, by decide, by decide, by decide, by decide, by decide⟩
  · exact (parse_tweet_url_spec "nope").2 (fun hocc => by
      have h := occurs_searchPattern_isSome hocc
      rw [show searchPattern "nope".data = none from rfl] at h
      exact Bool.noConfusion h)

/-- C10: the match is an unanchored substring search: a URL whose host
merely *ends* in `x.com`, or any string embedding the pattern, parses
successfully, returning the handle and id of the first embedded
occurrence. -/
theorem parse_tweet_url_unanchored :
    parse_tweet_url "https://notx.com/alice/status/99" = .ok ("alice", "99") ∧
    parse_tweet_url "see x.com/first/status/11 then x.com/second/status/22" =
      .ok ("first", "11") := by
  exact ⟨rfl, rfl⟩

/-- C6: for a malformed URL the `ValueError` of `parse_tweet_url` is raised
before the `try` block and propagates out of `fetch_tweet` unhandled; no
result with an `error` field is produced. -/
theorem fetch_tweet_format_error_propagates (url msg : String)
    (responses : Nat → Except FetchExc ApiResponse)
    (h : parse_tweet_url url = .error msg) :
    fetch_tweet url responses = .error msg := by
  simp [fetch_tweet, fetch_tweet_run, h, Except.map]

/-- Witness for C6: the malformed input `nope` makes `fetch_tweet` fail
with the propagated `ValueError` message. -/
theorem fetch_tweet_format_error_propagates_witness :
    fetch_tweet "nope" (fun _ => .error FetchExc.otherExc) =
      .error "Cannot parse tweet URL: nope" :=
  fetch_tweet_format_error_propagates "nope" "Cannot parse tweet URL: nope"
    (fun _ => .error FetchExc.otherExc) rfl

/-- C4: when the transport layer fails on both attempts, `fetch_tweet`
makes exactly two attempts with one sleep between them, and returns a
result carrying the network-error message and no `tweet` field. -/
theorem fetch_tweet_two_transport_failures (url u i m0 m1 : String)
    (responses : Nat → Except FetchExc ApiResponse)
    (hp : parse_tweet_url url = .ok (u, i))
    (h0 : responses 0 = .error (.urlErr m0))
    (h1 : responses 1 = .error (.urlErr m1)) :
    fetch_tweet_run url responses =
      .ok ({ url := url, username := u, tweet_id := i,
             error := some "Network error: Failed to fetch tweet after retry",
             tweet := none }, 2, 1) := by
  simp [fetch_tweet_run, hp, attemptLoop, h0, h1, FetchExc.isURLError]

/-- Witness for C4 at a concrete URL and a transport layer failing on every
attempt. -/
theorem fetch_tweet_two_transport_failures_witness :
    fetch_tweet_run "https://x.com/a/status/1" (fun _ => .error (.urlErr "dns")) =
      .ok ({ url := "https://x.com/a/status/1", username := "a", tweet_id := "1",
             error := some "Network error: Failed to fetch tweet after retry",
             tweet := none }, 2, 1) :=
  fetch_tweet_two_transport_failures "https://x.com/a/status/1" "a" "1" "dns" "dns"
    (fun _ => .error (.urlErr "dns")) rfl rfl rfl

/-- C5: when the first attempt succeeds at the transport level but the
body's top-level `code` is not 200, the result carries an error describing
the remote-reported code and message, has no `tweet` field, and exactly one
attempt was made (no retry), with no exception escaping. -/
theorem fetch_tweet_remote_code_error (url u i : String)
    (responses : Nat → Except FetchExc ApiResponse) (data : ApiResponse)
    (hp : parse_tweet_url url = .ok (u, i))
    (h0 : responses 0 = .ok data)
    (hc : ¬ data.code = some 200) :
    fetch_tweet_run url responses =
      .ok ({ url := url, username := u, tweet_id := i,
             error := some ("FxTwitter returned code " ++ codeRepr data.code ++ ": " ++
               data.message.getD "Unknown"),
             tweet := none }, 1, 0) := by
  simp [fetch_tweet_run, hp, attemptLoop, h0, processResponse, hc]

/-- Witness for C5: remote responds with body code 404 and a message; the
result records them and only one attempt is made. -/
theorem fetch_tweet_remote_code_error_witness :
    fetch_tweet_run "https://x.com/a/status/1"
        (fun _ => .ok { code := some 404, message := some "Not found", tweet := none }) =
      .ok ({ url := "https://x.com/a/status/1", username := "a", tweet_id := "1",
             error := some "FxTwitter returned code 404: Not found",
             tweet := none }, 1, 0) :=
  fetch_tweet_remote_code_error "https://x.com/a/status/1" "a" "1"
    (fun _ => .ok { code := some 404, message := some "Not found", tweet := none })
    { code := some 404, message := some "Not found", tweet := none }
    rfl rfl (by simp)

/-- C2 (divergence witness): the `except urllib.error.HTTPError` handler is
dead code because `HTTPError` subclasses `URLError` and the `URLError`
clause comes first; an HTTP-level failure on the first attempt is therefore
*retried*, and after a second one the result carries the generic
network-error message, never `HTTP 404: ...`. -/
theorem fetch_tweet_http_error_is_retried :
    fetch_tweet_run "https://x.com/a/status/1"
        (fun _ => .error (.httpErr 404 "Not Found")) =
      .ok ({ url := "https://x.com/a/status/1", username := "a", tweet_id := "1",
             error := some "Network error: Failed to fetch tweet after retry",
             tweet := none }, 2, 1) := rfl

/-! ## Shape of the output records (C3, C8) -/

/-- An article whose `content.blocks` is the empty list. -/
def emptyBlocksArticle : ArticleJson :=
  { title := none, preview_text := none, created_at := none,
    content := some { blocks := some [] } }

/-- A minimal upstream tweet carrying `emptyBlocksArticle`. -/
def emptyBlocksTweet : TweetJson :=
  { text := some "hi", author := none, likes := none, retweets := none,
    bookmarks := none, views := none, replies := none, created_at := none,
    is_note_tweet := none, lang := none, media := none, quote := none,
    article := some emptyBlocksArticle }

/-- A success response carrying `emptyBlocksTweet`. -/
def emptyBlocksResp : ApiResponse :=
  { code := some 200, message := none, tweet := some emptyBlocksTweet }

/-- C3 counterexample: on the success path, an article whose content blocks
list is empty produces an `ArticleData` record with only `title`,
`preview_text` and `created_at` — the `full_text`, `word_count` and
`char_count` keys are missing, so the record is not fully shaped. -/
theorem article_empty_blocks_missing_keys :
    ((fetch_tweet "https://x.com/a/status/1" (fun _ => .ok emptyBlocksResp)).toOption.bind
        (fun r => r.tweet)).bind (fun td => jget td "article") =
      some (JVal.jobj
        [("title", .jstr ""), ("preview_text", .jstr ""), ("created_at", .jstr "")]) ∧
    jget (JVal.jobj
        [("title", JVal.jstr ""), ("preview_text", JVal.jstr ""),
         ("created_at", JVal.jstr "")]) "full_text" = none ∧
    jget (JVal.jobj
        [("title", JVal.jstr ""), ("preview_text", JVal.jstr ""),
         ("created_at", JVal.jstr "")]) "word_count" = none :=
  ⟨rfl, rfl, rfl⟩

/-- C3 (amended): every numeric field absent upstream defaults to 0 and
every string field to the empty string; the `TweetData` and `QuoteData`
records always carry all their keys; the `ArticleData` record always
carries `title`, `preview_text` and `created_at`, and carries `full_text`
(with the derived counts) exactly when the article's content blocks list is
nonempty. -/
theorem records_fully_shaped (t : TweetJson) :
    (jget (buildTweetData t) "text" = some (.jstr (t.text.getD "")) ∧
     jget (buildTweetData t) "author" = some (.jstr ((t.author.bind AuthorJson.name).getD "")) ∧
     jget (buildTweetData t) "screen_name" =
       some (.jstr ((t.author.bind AuthorJson.screen_name).getD "")) ∧
     jget (buildTweetData t) "likes" = some (.jnum (t.likes.getD 0)) ∧
     jget (buildTweetData t) "retweets" = some (.jnum (t.retweets.getD 0)) ∧
     jget (buildTweetData t) "bookmarks" = some (.jnum (t.bookmarks.getD 0)) ∧
     jget (buildTweetData t) "views" = some (.jnum (t.views.getD 0)) ∧
     jget (buildTweetData t) "replies_count" = some (.jnum (t.replies.getD 0)) ∧
     jget (buildTweetData t) "created_at" = some (.jstr (t.created_at.getD "")) ∧
     jget (buildTweetData t) "is_note_tweet" =
       some (.jbool (t.is_note_tweet.getD false)) ∧
     jget (buildTweetData t) "lang" = some (.jstr (t.lang.getD "")) ∧
     (jget (buildTweetData t) "is_article").isSome = true) ∧
    (∀ qt, t.quote = some qt →
      jget (buildTweetData t) "quote" = some (buildQuote qt) ∧
      jget (buildQuote qt) "text" = some (.jstr (qt.text.getD "")) ∧
      jget (buildQuote qt) "author" = some (.jstr ((qt.author.bind AuthorJson.name).getD "")) ∧
      jget (buildQuote qt) "screen_name" =
        some (.jstr ((qt.author.bind AuthorJson.screen_name).getD "")) ∧
      jget (buildQuote qt) "likes" = some (.jnum (qt.likes.getD 0)) ∧
      jget (buildQuote qt) "retweets" = some (.jnum (qt.retweets.getD 0)) ∧
      jget (buildQuote qt) "views" = some (.jnum (qt.views.getD 0))) ∧
    (∀ a, t.article = some a →
      jget (buildTweetData t) "article" = some (buildArticle a) ∧
      jget (buildArticle a) "title" = some (.jstr (a.title.getD "")) ∧
      jget (buildArticle a) "preview_text" = some (.jstr (a.preview_text.getD "")) ∧
      jget (buildArticle a) "created_at" = some (.jstr (a.created_at.getD "")) ∧
      ((jget (buildArticle a) "full_text").isSome = true ↔
        ((a.content.getD ⟨none⟩).blocks.getD []).isEmpty = false) ∧
      ((jget (buildArticle a) "word_count").isSome = true ↔
        ((a.content.getD ⟨none⟩).blocks.getD []).isEmpty = false) ∧
      ((jget (buildArticle a) "char_count").isSome = true ↔
        ((a.content.getD ⟨none⟩).blocks.getD []).isEmpty = false)) := by
  refine ⟨?_, ?_, ?_⟩
  · cases hme : extract_media t.media <;> cases hq : t.quote <;> cases ha : t.article <;>
      simp [buildTweetData, jget, jget.go, hme, hq, ha]
  · intro qt hq
    cases hme : extract_media t.media <;> cases ha : t.article <;>
      cases hmq : extract_media qt.media <;>
        simp [buildTweetData, buildQuote, jget, jget.go, hme, hq, ha, hmq]
  · intro a ha
    refine ⟨?_, ?_, ?_, ?_, ?_, ?_, ?_⟩
    · cases hme : extract_media t.media <;> cases hq : t.quote <;>
        simp [buildTweetData, jget, jget.go, hme, hq, ha]
    all_goals
      by_cases hb : ((a.content.getD ⟨none⟩).blocks.getD []).isEmpty = true <;>
        simp [buildArticle, jget, jget.go, hb]

/-- Witness for C3 at a concrete payload with a quote and an article with a
nonempty blocks list. -/
theorem records_fully_shaped_witness :
    jget (buildTweetData
        { text := none, author := none, likes := none, retweets := none,
          bookmarks := none, views := none, replies := none, created_at := none,
          is_note_tweet := none, lang := none, media := none,
          quote := some { text := none, author := none, likes := none,
                          retweets := none, views := none, media := none },
          article := some { title := some "T", preview_text := none, created_at := none,
                            content := some { blocks := some [{ text := some "hello world" }] } } })
        "quote" =
      some (buildQuote { text := none, author := none, likes := none,
                         retweets := none, views := none, media := none }) ∧
    jget (buildTweetData
        { text := none, author := none, likes := none, retweets := none,
          bookmarks := none, views := none, replies := none, created_at := none,
          is_note_tweet := none, lang := none, media := none,
          quote := some { text := none, author := none, likes := none,
                          retweets := none, views := none, media := none },
          article := some { title := some "T", preview_text := none, created_at := none,
                            content := some { blocks := some [{ text := some "hello world" }] } } })
        "article" =
      some (buildArticle { title := some "T", preview_text := none, created_at := none,
                           content := some { blocks := some [{ text := some "hello world" }] } }) := by
  obtain ⟨_, hquote, harticle⟩ := records_fully_shaped
    { text := none, author := none, likes := none, retweets := none,
      bookmarks := none, views := none, replies := none, created_at := none,
      is_note_tweet := none, lang := none, media := none,
      quote := some { text := none, author := none, likes := none,
                      retweets := none, views := none, media := none },
      article := some { title := some "T", preview_text := none, created_at := none,
                        content := some { blocks := some [{ text := some "hello world" }] } } }
  exact ⟨(hquote _ rfl).1, (harticle _ rfl).1⟩

/-- A quote sub-object with every key absent. -/
def bareQuote : QuoteJson :=
  { text := none, author := none, likes := none, retweets := none,
    views := none, media := none }

/-- A minimal upstream tweet carrying `bareQuote`. -/
def bareQuoteTweet : TweetJson :=
  { text := some "hi", author := none, likes := none, retweets := none,
    bookmarks := none, views := none, replies := none, created_at := none,
    is_note_tweet := none, lang := none, media := none,
    quote := some bareQuote, article := none }

/-- A success response carrying `bareQuoteTweet`. -/
def bareQuoteResp : ApiResponse :=
  { code := some 200, message := none, tweet := some bareQuoteTweet }

/-- C8 counterexample: the populated quote record does *not* have the same
shape as `TweetData` minus the article part — on a concrete success payload
with a quote, the quote record misses `bookmarks`, `replies_count`,
`created_at` and `lang`, all of which the main record carries. -/
theorem quote_record_not_tweet_shape :
    ((fetch_tweet "https://x.com/a/status/1" (fun _ => .ok bareQuoteResp)).toOption.bind
        (fun r => r.tweet)).bind (fun td => jget td "quote") = some (buildQuote bareQuote) ∧
    jget (buildQuote bareQuote) "bookmarks" = none ∧
    jget (buildQuote bareQuote) "replies_count" = none ∧
    jget (buildQuote bareQuote) "created_at" = none ∧
    jget (buildQuote bareQuote) "lang" = none ∧
    (jget (buildTweetData bareQuoteTweet) "bookmarks").isSome = true ∧
    (jget (buildTweetData bareQuoteTweet) "replies_count").isSome = true ∧
    (jget (buildTweetData bareQuoteTweet) "created_at").isSome = true ∧
    (jget (buildTweetData bareQuoteTweet) "lang").isSome = true :=
  ⟨rfl, rfl, rfl, rfl, rfl, rfl, rfl, rfl, rfl⟩

/-- C8 (amended): the populated quote record carries exactly the keys
`text`, `author`, `screen_name`, `likes`, `retweets` and `views`, plus
`media` exactly when media extraction yields something — a strict subset of
the `TweetData` keys, not all of them. -/
theorem quote_record_keys (qt : QuoteJson) :
    jkeys (buildQuote qt) =
      ["text", "author", "screen_name", "likes", "retweets", "views"] ++
        (match extract_media qt.media with
         | some _ => ["media"]
         | none => []) := by
  cases hmq : extract_media qt.media <;> simp [buildQuote, jkeys, hmq]

/-- C7: on a success payload with both a quote and an article with content
blocks, the returned tweet record has `quote` and `article` populated,
`is_article` is true, `full_text` is the `\n\n`-joined concatenation of the
blocks' nonempty texts, `word_count` the number of whitespace-separated
words of `full_text`, and `char_count` its length. -/
theorem fetch_quote_article_success (url u i : String)
    (responses : Nat → Except FetchExc ApiResponse) (data : ApiResponse)
    (t : TweetJson) (qt : QuoteJson) (a : ArticleJson) (blocks : List BlockJson)
    (hp : parse_tweet_url url = .ok (u, i))
    (h0 : responses 0 = .ok data)
    (hcode : data.code = some 200)
    (ht : data.tweet = some t)
    (hq : t.quote = some qt)
    (ha : t.article = some a)
    (hb : (a.content.getD ⟨none⟩).blocks.getD [] = blocks)
    (hbne : blocks ≠ []) :
    fetch_tweet url responses =
      .ok { url := url, username := u, tweet_id := i,
            error := none, tweet := some (buildTweetData t) } ∧
    jget (buildTweetData t) "quote" = some (buildQuote qt) ∧
    jget (buildTweetData t) "article" = some (buildArticle a) ∧
    jget (buildTweetData t) "is_article" = some (.jbool true) ∧
    jget (buildArticle a) "full_text" = some (.jstr (joinBlocks blocks)) ∧
    jget (buildArticle a) "word_count" =
      some (.jnum (pyWordCount (joinBlocks blocks))) ∧
    jget (buildArticle a) "char_count" = some (.jnum (joinBlocks blocks).length) := by
  have hbf : blocks.isEmpty = false := by
    cases blocks with
    | nil => exact absurd rfl hbne
    | cons b bs => rfl
  refine ⟨?_, ?_, ?_, ?_, ?_, ?_, ?_⟩
  · simp [fetch_tweet, fetch_tweet_run, hp, attemptLoop, h0, processResponse, hcode, ht,
      Except.map]
  · cases hme : extract_media t.media <;>
      simp [buildTweetData, jget, jget.go, hme, hq, ha]
  · cases hme : extract_media t.media <;>
      simp [buildTweetData, jget, jget.go, hme, hq, ha]
  · cases hme : extract_media t.media <;>
      simp [buildTweetData, jget, jget.go, hme, hq, ha]
  all_goals simp [buildArticle, jget, jget.go, hb, hbf]

/-- The article used by the C7 witness: three blocks, one empty, one with
no text key. -/
def c7Article : ArticleJson :=
  { title := none, preview_text := none, created_at := none,
    content := some { blocks := some (
      [{ text := some "hello world" }, { text := some "" }, { text := none },
       { text := some "bye" }]) } }

/-- The tweet used by the C7 witness: carries `bareQuote` and `c7Article`. -/
def c7Tweet : TweetJson :=
  { text := none, author := none, likes := none, retweets := none,
    bookmarks := none, views := none, replies := none, created_at := none,
    is_note_tweet := none, lang := none, media := none,
    quote := some bareQuote, article := some c7Article }

/-- The success response used by the C7 witness. -/
def c7Resp : ApiResponse :=
  { code := some 200, message := none, tweet := some c7Tweet }

/-- Witness for C7: a concrete payload with a quote and an article whose
blocks join to `hello world\n\nbye` — 3 words, 16 characters. -/
theorem fetch_quote_article_success_witness :
    fetch_tweet "https://x.com/a/status/1" (fun _ => .ok c7Resp) =
      .ok { url := "https://x.com/a/status/1", username := "a", tweet_id := "1",
            error := none, tweet := some (buildTweetData c7Tweet) } ∧
    jget (buildArticle c7Article) "full_text" = some (.jstr "hello world\n\nbye") ∧
    jget (buildArticle c7Article) "word_count" = some (.jnum 3) ∧
    jget (buildArticle c7Article) "char_count" = some (.jnum 16) := by
  have h := fetch_quote_article_success "https://x.com/a/status/1" "a" "1"
    (fun _ => .ok c7Resp) c7Resp c7Tweet bareQuote c7Article
    ((c7Article.content.getD ⟨none⟩).blocks.getD [])
    rfl rfl rfl rfl rfl rfl rfl (by simp [c7Article])
  refine ⟨h.1, ?_, ?_, ?_⟩
  · rw [h.2.2.2.2.1]; rfl
  · rw [h.2.2.2.2.2.1]; rfl
  · rw [h.2.2.2.2.2.2]; rfl

/-- A tweet with no text and no article. -/
def emptyTextTweet : TweetJson :=
  { text := none, author := none, likes := none, retweets := none,
    bookmarks := none, views := none, replies := none, created_at := none,
    is_note_tweet := none, lang := none, media := none, quote := none,
    article := none }

/-- A successful response whose tweet has no text and no article. -/
def emptyTextResp : ApiResponse :=
  { code := some 200, message := none, tweet := some emptyTextTweet }

/-- C9 counterexample: a successful fetch of a tweet with empty text and no
article yields a result carrying neither an article full text nor a tweet
text *and no error*; with `--text-only` the program then prints nothing and
exits normally — it does not print an error or exit with status 1. -/
theorem text_only_silent_on_empty_text :
    (fetch_tweet "https://x.com/a/status/1" (fun _ => .ok emptyTextResp)).toOption.map
        textOnlyAction = some CliAction.silent ∧
    ((fetch_tweet "https://x.com/a/status/1" (fun _ => .ok emptyTextResp)).toOption.bind
        (fun r => r.tweet)).bind (fun td => jget td "text") = some (JVal.jstr "") ∧
    ((fetch_tweet "https://x.com/a/status/1" (fun _ => .ok emptyTextResp)).toOption.bind
        (fun r => r.tweet)).bind (fun td => jget td "article") = none ∧
    (fetch_tweet "https://x.com/a/status/1" (fun _ => .ok emptyTextResp)).toOption.bind
        (fun r => r.error) = none :=
  ⟨rfl, rfl, rfl, rfl⟩

/-- C9 (amended): with `--text-only`, when the result carries neither a
usable article full text nor a truthy tweet text, the program prints an
error to stderr and exits with status 1 exactly when the result carries a
truthy `error`; with no (or an empty) `error` it prints nothing and exits
normally. -/
theorem text_only_missing_text_behavior (r : FetchResult)
    (h1 : (optTruthy (jget (r.tweet.getD (.jobj [])) "is_article") &&
           optTruthy (jget ((jget (r.tweet.getD (.jobj [])) "article").getD (.jobj []))
             "full_text")) = false)
    (h2 : optTruthy (jget (r.tweet.getD (.jobj [])) "text") = false) :
    textOnlyAction r =
      match r.error with
      | some m => if m = "" then CliAction.silent else CliAction.errorExit ("Error: " ++ m)
      | none => CliAction.silent := by
  cases herr : r.error with
  | none => simp [textOnlyAction, h1, h2, herr, strTruthy]
  | some m =>
      by_cases hm : m = "" <;>
        simp [textOnlyAction, h1, h2, herr, strTruthy, hm]

/-- An errored result with no tweet record, for the C9 witness. -/
def erroredResult : FetchResult :=
  { url := "u", username := "a", tweet_id := "1",
    error := some "boom", tweet := none }

/-- Witness for C9 at a concrete errored result with no tweet record. -/
theorem text_only_missing_text_behavior_witness :
    textOnlyAction erroredResult = CliAction.errorExit "Error: boom" := by
  have h := text_only_missing_text_behavior erroredResult rfl rfl
  simpa [erroredResult] using h

end FetchTweet
